import Mathlib

/-!
Shallow embedding of `src/backend/main.py` (a FastAPI social-media backend)
and proofs about it.

Conventions of the embedding:
* bytes of a file are modelled as `List Nat`;
* Python `int` ids and epoch timestamps are modelled as `Nat` (the ids the
  service generates are positive; `datetime` values are modelled as abstract
  `Nat` instants);
* Python string and `int(s)` operations are re-implemented structurally over
  the character lists (see `removeBytesEq`, `splitOnChar`, `pythonInt?`);
* an uncaught Python exception surfacing through FastAPI is modelled as a
  response with status 500;
* a SQLAlchemy table is a `List` of row structures, kept in insertion order;
  `query(...).filter(...).first()` is `List.find?`, `.count()` is
  `List.countP`, `.all()` is `List.filter`.
-/

/-! ## HTTP responses -/

/-- A rendered HTTP response: status code, body bytes, and headers in the
order the handler sets them. -/
structure HttpResponse where
  status : Nat
  body : List Nat
  headers : List (String × String)
deriving Repr, DecidableEq

/-! ## Media byte-range server (`serve_media`, main.py lines 193-256) -/

/-- Python `s.endswith(suffix)`, over the character lists. -/
def endsWithStr (s suffix : String) : Bool :=
  suffix.data.isSuffixOf s.data

/-- Embeds `filename.lower().endswith(('.mp4', '.mov', '.avi', '.mkv', '.webm'))`
(`str.lower` over the ASCII filenames at issue is per-character
lowercasing). -/
def isVideo (filename : String) : Bool :=
  let f := (filename.data.map Char.toLower).asString
  endsWithStr f ".mp4" || endsWithStr f ".mov" || endsWithStr f ".avi" ||
    endsWithStr f ".mkv" || endsWithStr f ".webm"

/-- Embeds `"video/quicktime" if filename.endswith('.mov') else "video/mp4"`
(note: the source does not lowercase here). -/
def videoContentType (filename : String) : String :=
  if endsWithStr filename ".mov" then "video/quicktime" else "video/mp4"

/-- The `media_type` chosen in the full-file branch of `serve_media`. -/
def fullFileMediaType (filename : String) : Option String :=
  if endsWithStr filename ".jpg" || endsWithStr filename ".jpeg" then some "image/jpeg"
  else if endsWithStr filename ".png" then some "image/png"
  else if endsWithStr filename ".mov" then some "video/quicktime"
  else if endsWithStr filename ".mp4" then some "video/mp4"
  else none

/-- Python `str.replace("bytes=", "")`: remove every (non-overlapping,
leftmost-first) occurrence of the literal pattern `bytes=`, scanning left to
right over the character list. -/
def removeBytesEq : List Char → List Char
  | 'b' :: 'y' :: 't' :: 'e' :: 's' :: '=' :: rest => removeBytesEq rest
  | c :: rest => c :: removeBytesEq rest
  | [] => []

/-- Python `str.split(sep)` for a one-character separator: split at every
occurrence; always returns at least one (possibly empty) part. -/
def splitOnChar (sep : Char) : List Char → List (List Char)
  | [] => [[]]
  | c :: cs =>
    if c = sep then [] :: splitOnChar sep cs
    else
      match splitOnChar sep cs with
      | [] => [[c]]
      | p :: ps => (c :: p) :: ps

/-- The value of a decimal digit character. -/
def charDigit? (c : Char) : Option Nat :=
  if c.isDigit then some (c.toNat - 48) else none

/-- Left-to-right accumulation of decimal digits; `none` on a non-digit. -/
def digitsAccum (acc : Nat) : List Char → Option Nat
  | [] => some acc
  | c :: cs =>
    match charDigit? c with
    | some d => digitsAccum (acc * 10 + d) cs
    | none => none

/-- A non-empty all-digit string as a number. -/
def digitsToNat? : List Char → Option Nat
  | [] => none
  | cs => digitsAccum 0 cs

/-- Python `int(s)` on the strings at issue here: an optional sign followed
by decimal digits; anything else (in particular empty or non-numeric text)
raises `ValueError`, modelled as `none`.  (Python's tolerance for surrounding
whitespace and underscores between digits is not needed for any input this
development evaluates.) -/
def pythonInt? (cs : List Char) : Option Int :=
  match cs with
  | [] => none
  | c :: rest =>
    if c = '-' then (digitsToNat? rest).map (fun m => -(m : Int))
    else if c = '+' then (digitsToNat? rest).map (fun m => (m : Int))
    else (digitsToNat? cs).map (fun m => (m : Int))

/-- Embeds `range_header.replace("bytes=", "").split("-")`. -/
def rangeParts (rangeHeader : String) : List (List Char) :=
  splitOnChar '-' (removeBytesEq rangeHeader.data)

/-- Embeds `start = int(range_match[0]) if range_match[0] else 0`; `none` models the
`ValueError` that `int` raises on a non-numeric component.  (`split` never
returns an empty list, so the `none` head branch is unreachable.) -/
def parseRangeStart (parts : List (List Char)) : Option Int :=
  match parts.head? with
  | none => none
  | some p => if p = [] then some 0 else pythonInt? p

/-- Embeds `end = int(range_match[1]) if len(range_match) > 1 and range_match[1]
else file_size - 1`. -/
def parseRangeEnd (parts : List (List Char)) (fileSize : Nat) : Option Int :=
  match parts.get? 1 with
  | some p => if p = [] then some ((fileSize : Int) - 1) else pythonInt? p
  | none => some ((fileSize : Int) - 1)

/-- Embeds `f.read(min(8192, remaining))` after the file handle has advanced to
byte `pos`: a negative argument to Python's `f.read` reads to end of file. -/
def readChunk (content : List Nat) (pos : Nat) (remaining : Int) : List Nat :=
  if min 8192 remaining < 0 then content.drop pos
  else (content.drop pos).take (min 8192 remaining).toNat

/-- The generator `iter_file`: starting at byte `pos` with `remaining` bytes
requested, repeatedly read `min(8192, remaining)` bytes while `remaining` is
non-zero (Python truthiness), stopping early on an empty read. -/
def iterFile (content : List Nat) (pos : Nat) (remaining : Int) : List Nat :=
  if hr : remaining = 0 then []
  else
    let chunk := readChunk content pos remaining
    if hc : chunk.length = 0 then []
    else chunk ++ iterFile content (pos + chunk.length) (remaining - chunk.length)
termination_by (remaining.toNat, content.length - pos)
decreasing_by
  simp only [Prod.lex_iff]
  set ck := readChunk content pos remaining with hck
  have hc2 : ck.length ≠ 0 := hc
  by_cases hneg : remaining < 0
  · right
    have hckval : ck = content.drop pos := by
      have hmin : min 8192 remaining = remaining := min_eq_right (by omega)
      rw [hck]
      simp only [readChunk, hmin, if_pos hneg]
    have hlen : ck.length = content.length - pos := by rw [hckval]; simp
    constructor
    · omega
    · omega
  · have hpos : 0 < remaining := lt_of_le_of_ne (by omega) (Ne.symm hr)
    left
    have hminpos : 0 < min 8192 remaining := lt_min (by norm_num) hpos
    have hckval : ck = (content.drop pos).take (min 8192 remaining).toNat := by
      rw [hck]
      simp only [readChunk, if_neg (by omega : ¬ min 8192 remaining < 0)]
    have hlen : ck.length ≤ (min 8192 remaining).toNat := by
      rw [hckval]; exact List.length_take_le _ _
    have hcast : ((min 8192 remaining).toNat : Int) = min 8192 remaining :=
      Int.toNat_of_nonneg (by omega)
    have hle : min 8192 remaining ≤ remaining := min_le_right _ _
    omega

/-- The endpoint `serve_media` (main.py lines 193-256).  The filesystem is an
association list from filename to byte content; `rangeHeader` is
`request.headers.get("range")`.  The guard `if is_video and range_header:`
tests Python truthiness, so an empty header string falls through to the
full-file branch; a `ValueError` escaping from `int(...)` surfaces as a 500. -/
def serve_media (fs : List (String × List Nat)) (filename : String)
    (rangeHeader : Option String) : HttpResponse :=
  match fs.find? (fun e => e.1 == filename) with
  | none => { status := 404, body := [], headers := [] }
  | some entry =>
    let content := entry.2
    let fileSize := content.length
    let fullFile : HttpResponse :=
      { status := 200
        body := content
        headers :=
          (match fullFileMediaType filename with
           | some mt => [("Content-Type", mt)]
           | none => []) ++ [("Accept-Ranges", "bytes")] }
    match rangeHeader with
    | none => fullFile
    | some rh =>
      if isVideo filename && !rh.data.isEmpty then
        let parts := rangeParts rh
        match parseRangeStart parts, parseRangeEnd parts fileSize with
        | some s, some e0 =>
          let e := min e0 ((fileSize : Int) - 1)
          let chunkSize := e - s + 1
          { status := 206
            body := iterFile content s.toNat chunkSize
            headers :=
              [("Content-Range",
                  "bytes " ++ toString s ++ "-" ++ toString e ++ "/" ++ toString fileSize),
               ("Accept-Ranges", "bytes"),
               ("Content-Length", toString chunkSize),
               ("Content-Type", videoContentType filename)] }
        | _, _ => { status := 500, body := [], headers := [] }
      else fullFile

/-! ## Database model (SQLAlchemy tables of main.py lines 26-91)

Each table is a list of rows in insertion order; `DateTime` values are
abstract `Nat` instants supplied by the caller (`datetime.utcnow()`). -/

/-- A row of `media_posts` (class `MediaPost`). -/
structure MediaPostRow where
  id : Nat
  filename : String
  original_filename : String
  media_type : String
  caption : Option String
  emojis : Option String
  timestamp : Nat
  published : Bool
  file_path : String
deriving Repr, DecidableEq

/-- A row of `comments` (class `Comment`). -/
structure CommentRow where
  id : Nat
  content : String
  created_at : Nat
  updated_at : Nat
  media_post_id : Nat
  parent_comment_id : Option Nat
  author_name : String
deriving Repr, DecidableEq

/-- A row of `comment_likes` (class `CommentLike`). -/
structure CommentLikeRow where
  id : Nat
  created_at : Nat
  comment_id : Nat
  user_name : String
deriving Repr, DecidableEq

/-- A row of `media_likes` (class `MediaLike`). -/
structure MediaLikeRow where
  id : Nat
  created_at : Nat
  media_post_id : Nat
  user_name : String
deriving Repr, DecidableEq

/-- The whole relational store. -/
structure DB where
  posts : List MediaPostRow
  comments : List CommentRow
  commentLikes : List CommentLikeRow
  mediaLikes : List MediaLikeRow
deriving Repr, DecidableEq

/-- An `HTTPException(status_code, detail)`. -/
structure ApiError where
  status : Nat
  detail : String
deriving Repr, DecidableEq

/-! ## Response shapes (Pydantic models) -/

/-- Pydantic `MediaPostResponse`. -/
structure MediaPostResponse where
  id : Nat
  filename : String
  media_type : String
  caption : Option String
  emojis : Option String
  timestamp : Nat
  published : Bool
  url : String
  likes_count : Nat
deriving Repr, DecidableEq

/-- Pydantic `CommentLikeResponse`. -/
structure CommentLikeResponse where
  id : Nat
  user_name : String
  created_at : Nat
deriving Repr, DecidableEq

/-- Pydantic `CommentResponse`. -/
structure CommentResponse where
  id : Nat
  content : String
  author_name : String
  created_at : Nat
  updated_at : Nat
  media_post_id : Nat
  parent_comment_id : Option Nat
  likes_count : Nat
  replies_count : Nat
  likes : List CommentLikeResponse
deriving Repr, DecidableEq

/-- Pydantic `CommentCreate` request body. -/
structure CommentCreate where
  content : String
  author_name : String
  parent_comment_id : Option Nat
deriving Repr, DecidableEq

/-- Embeds `CommentLikeResponse.model_validate(like)`. -/
def commentLikeResponseOf (l : CommentLikeRow) : CommentLikeResponse :=
  { id := l.id, user_name := l.user_name, created_at := l.created_at }

/-- Embeds `db.query(MediaLike).filter(MediaLike.media_post_id == pid).count()`. -/
def mediaLikesCount (db : DB) (pid : Nat) : Nat :=
  db.mediaLikes.countP (fun l => l.media_post_id == pid)

/-- The `MediaPostResponse(...)` built for a post in `get_all_media` and
`get_media_by_id`: its `url` is `f"/media/{post.filename}"` and its
`likes_count` is queried live. -/
def mediaPostResponseOf (db : DB) (p : MediaPostRow) : MediaPostResponse :=
  { id := p.id, filename := p.filename, media_type := p.media_type,
    caption := p.caption, emojis := p.emojis, timestamp := p.timestamp,
    published := p.published, url := "/media/" ++ p.filename,
    likes_count := mediaLikesCount db p.id }

/-- Helper `build_comment_response` (main.py lines 439-455): like and reply
counts and the like list are computed live from the store. -/
def build_comment_response (comment : CommentRow) (db : DB) : CommentResponse :=
  { id := comment.id, content := comment.content,
    author_name := comment.author_name, created_at := comment.created_at,
    updated_at := comment.updated_at, media_post_id := comment.media_post_id,
    parent_comment_id := comment.parent_comment_id,
    likes_count := db.commentLikes.countP (fun l => l.comment_id == comment.id),
    replies_count := db.comments.countP (fun c => c.parent_comment_id == some comment.id),
    likes := (db.commentLikes.filter (fun l => l.comment_id == comment.id)).map
      commentLikeResponseOf }

/-! ## Media CRUD endpoints -/

/-- Endpoint `GET /api/media` (`get_all_media`, main.py lines 339-382): only
`published == True` rows, ordered by `timestamp` descending, with
`offset(skip).limit(limit)` pagination (FastAPI defaults `skip=0`,
`limit=100`), each annotated with a live like count. -/
def get_all_media (db : DB) (skip limit : Nat) : List MediaPostResponse :=
  ((((db.posts.filter (fun p => p.published)).mergeSort
      (fun a b => decide (b.timestamp ≤ a.timestamp))).drop skip).take limit).map
    (mediaPostResponseOf db)

/-- Endpoint `GET /api/media/{media_id}` (`get_media_by_id`, main.py lines 384-410). -/
def get_media_by_id (db : DB) (media_id : Nat) : Except ApiError MediaPostResponse :=
  match db.posts.find? (fun p => p.id == media_id) with
  | none => .error ⟨404, "Media not found"⟩
  | some p => .ok (mediaPostResponseOf db p)

/-- Endpoint `DELETE /api/media/{media_id}` (`delete_media`, main.py lines 412-436),
database effect only (the on-disk file removal is outside this model).
`db.delete(media_post)` cascades through the ORM relationships declared with
`cascade="all, delete-orphan"`: every `Comment` with this `media_post_id`
(top level or reply) is deleted, each deleted comment cascades in turn to its
`CommentLike` rows, and every `MediaLike` of the post is deleted. -/
def delete_media (db : DB) (media_id : Nat) : Except ApiError DB :=
  match db.posts.find? (fun p => p.id == media_id) with
  | none => .error ⟨404, "Media not found"⟩
  | some _ =>
    let deadCommentIds :=
      (db.comments.filter (fun c => c.media_post_id == media_id)).map (fun c => c.id)
    .ok { posts := db.posts.filter (fun p => p.id != media_id)
          comments := db.comments.filter (fun c => c.media_post_id != media_id)
          commentLikes := db.commentLikes.filter
            (fun l => !(deadCommentIds.contains l.comment_id))
          mediaLikes := db.mediaLikes.filter (fun l => l.media_post_id != media_id) }

/-! ## Comment endpoints -/

/-- Python truthiness of an `Optional[int]`: `None` and `0` are both falsy,
which is what `if comment_data.parent_comment_id:` tests. -/
def isTruthyId : Option Nat → Bool
  | none => false
  | some n => n != 0

/-- Endpoint `POST /api/media/{media_id}/comments` (`create_comment`, main.py lines
458-489).  The parent check runs only when `parent_comment_id` is truthy;
the inserted row keeps the supplied `parent_comment_id` verbatim and the
response is built from the post-insert store. -/
def create_comment (db : DB) (media_id : Nat) (comment_data : CommentCreate)
    (now newId : Nat) : Except ApiError (DB × CommentResponse) :=
  match db.posts.find? (fun p => p.id == media_id) with
  | none => .error ⟨404, "Media post not found"⟩
  | some _ =>
    let comment : CommentRow :=
      { id := newId, content := comment_data.content, created_at := now,
        updated_at := now, media_post_id := media_id,
        parent_comment_id := comment_data.parent_comment_id,
        author_name := comment_data.author_name }
    let inserted : DB × CommentResponse :=
      let db2 : DB := { db with comments := db.comments ++ [comment] }
      (db2, build_comment_response comment db2)
    if isTruthyId comment_data.parent_comment_id then
      match db.comments.find? (fun c =>
          c.id == comment_data.parent_comment_id.getD 0 &&
          c.media_post_id == media_id) with
      | none => .error ⟨404, "Parent comment not found or doesn't belong to this media"⟩
      | some _ => .ok inserted
    else .ok inserted

/-- Endpoint `GET /api/comments/{comment_id}` (`get_comment`, main.py lines 539-548). -/
def get_comment (db : DB) (comment_id : Nat) : Except ApiError CommentResponse :=
  match db.comments.find? (fun c => c.id == comment_id) with
  | none => .error ⟨404, "Comment not found"⟩
  | some c => .ok (build_comment_response c db)

/-- Endpoint `PUT /api/comments/{comment_id}` (`update_comment`, main.py lines
550-565): sets `content` and `updated_at = datetime.utcnow()` on the found
row and commits (`UPDATE comments SET ... WHERE id = comment_id`). -/
def update_comment (db : DB) (comment_id : Nat) (content : String) (now : Nat) :
    Except ApiError (DB × CommentResponse) :=
  match db.comments.find? (fun c => c.id == comment_id) with
  | none => .error ⟨404, "Comment not found"⟩
  | some c =>
    let db2 : DB := { db with comments := db.comments.map (fun x =>
        if x.id == comment_id then { x with content := content, updated_at := now }
        else x) }
    .ok (db2, build_comment_response { c with content := content, updated_at := now } db2)

/-- Endpoint `DELETE /api/comments/{comment_id}` (`delete_comment`, main.py lines
567-580).  `db.delete(comment)` follows the ORM relationship cascades of
class `Comment`: the `likes` relationship carries
`cascade="all, delete-orphan"`, so the comment's own `CommentLike` rows are
deleted; but the self-referential `replies` backref (declared as
`relationship("Comment", remote_side=[id], backref="replies")`) has the
default cascade `"save-update, merge"`, so on delete SQLAlchemy NULLifies the
children's `parent_comment_id` (nullable, and SQLite foreign keys are not
enabled) instead of deleting them: replies survive as top-level comments and
keep their likes. -/
def delete_comment (db : DB) (comment_id : Nat) : Except ApiError DB :=
  match db.comments.find? (fun c => c.id == comment_id) with
  | none => .error ⟨404, "Comment not found"⟩
  | some _ =>
    .ok { db with
          comments := (db.comments.filter (fun c => c.id != comment_id)).map
            (fun c => if c.parent_comment_id == some comment_id
                      then { c with parent_comment_id := none } else c)
          commentLikes := db.commentLikes.filter (fun l => l.comment_id != comment_id) }

/-! ## Like endpoints -/

/-- Endpoint `POST /api/comments/{comment_id}/like` (`like_comment`, main.py lines
583-612). -/
def like_comment (db : DB) (comment_id : Nat) (user_name : String)
    (now newId : Nat) : Except ApiError DB :=
  match db.comments.find? (fun c => c.id == comment_id) with
  | none => .error ⟨404, "Comment not found"⟩
  | some _ =>
    match db.commentLikes.find? (fun l =>
        l.comment_id == comment_id && l.user_name == user_name) with
    | some _ => .error ⟨400, "Comment already liked by this user"⟩
    | none =>
      .ok { db with commentLikes :=
              db.commentLikes ++ [⟨newId, now, comment_id, user_name⟩] }

/-- Endpoint `DELETE /api/comments/{comment_id}/like` (`unlike_comment`, main.py lines
614-631): deletes the single row returned by `.first()`. -/
def unlike_comment (db : DB) (comment_id : Nat) (user_name : String) :
    Except ApiError DB :=
  match db.commentLikes.find? (fun l =>
      l.comment_id == comment_id && l.user_name == user_name) with
  | none => .error ⟨404, "Like not found"⟩
  | some _ =>
    .ok { db with commentLikes := db.commentLikes.eraseP (fun l =>
            l.comment_id == comment_id && l.user_name == user_name) }

/-- Endpoint `POST /api/media/{media_id}/like` (`like_media`, main.py lines 647-676). -/
def like_media (db : DB) (media_id : Nat) (user_name : String)
    (now newId : Nat) : Except ApiError DB :=
  match db.posts.find? (fun p => p.id == media_id) with
  | none => .error ⟨404, "Media post not found"⟩
  | some _ =>
    match db.mediaLikes.find? (fun l =>
        l.media_post_id == media_id && l.user_name == user_name) with
    | some _ => .error ⟨400, "Media post already liked by this user"⟩
    | none =>
      .ok { db with mediaLikes :=
              db.mediaLikes ++ [⟨newId, now, media_id, user_name⟩] }

/-- Endpoint `DELETE /api/media/{media_id}/like` (`unlike_media`, main.py lines
678-695). -/
def unlike_media (db : DB) (media_id : Nat) (user_name : String) :
    Except ApiError DB :=
  match db.mediaLikes.find? (fun l =>
      l.media_post_id == media_id && l.user_name == user_name) with
  | none => .error ⟨404, "Like not found"⟩
  | some _ =>
    .ok { db with mediaLikes := db.mediaLikes.eraseP (fun l =>
            l.media_post_id == media_id && l.user_name == user_name) }

/-! ## Auxiliary definitions for the verification -/

-- Equality of `Except` results is decidable componentwise.
deriving instance DecidableEq for Except

/-- Number of decimal digits of a natural number (1 for 0); used to reason
about `Nat.toDigitsCore`. -/
def digitsLen (n : Nat) : Nat :=
  if n < 10 then 1 else digitsLen (n / 10) + 1
decreasing_by exact Nat.div_lt_self (by omega) (by omega)

/-! Concrete example stores used by the closed evidence theorems below. -/

/-- A store with a top-level comment (id 1), a reply (id 2) and a like on the
reply. -/
def dbC3 : DB :=
  { posts := [⟨1, "v.mp4", "v.mp4", "video", none, none, 100, true, "media/v.mp4"⟩]
    comments := [⟨1, "top", 5, 5, 1, none, "alice"⟩, ⟨2, "reply", 6, 6, 1, some 1, "bob"⟩]
    commentLikes := [⟨1, 7, 2, "carol"⟩]
    mediaLikes := [] }

/-- The store `dbC3` after `delete_comment` on comment 1: the reply survives
with its parent pointer nullified, and its like survives. -/
def dbC3post : DB :=
  { posts := [⟨1, "v.mp4", "v.mp4", "video", none, none, 100, true, "media/v.mp4"⟩]
    comments := [⟨2, "reply", 6, 6, 1, none, "bob"⟩]
    commentLikes := [⟨1, 7, 2, "carol"⟩]
    mediaLikes := [] }

/-- A store with a single post and no comments. -/
def dbC6 : DB :=
  { posts := [⟨1, "p.jpg", "p.jpg", "photo", none, none, 50, true, "media/p.jpg"⟩]
    comments := []
    commentLikes := []
    mediaLikes := [] }

/-- A store with one post and one comment, no likes. -/
def dbC2 : DB :=
  { posts := [⟨1, "a.jpg", "a.jpg", "photo", none, none, 100, true, "media/a.jpg"⟩]
    comments := [⟨1, "nice", 5, 5, 1, none, "bob"⟩]
    commentLikes := []
    mediaLikes := [] }

/-- A store with two posts and a comment that belongs to post 2. -/
def dbC6W : DB :=
  { posts := [⟨1, "a.jpg", "a.jpg", "photo", none, none, 100, true, "media/a.jpg"⟩,
              ⟨2, "b.jpg", "b.jpg", "photo", none, none, 200, true, "media/b.jpg"⟩]
    comments := [⟨7, "on post two", 5, 5, 2, none, "dan"⟩]
    commentLikes := []
    mediaLikes := [] }

/-- A store with one published post. -/
def dbC7 : DB :=
  { posts := [⟨1, "a.jpg", "a.jpg", "photo", none, none, 100, true, "media/a.jpg"⟩]
    comments := []
    commentLikes := []
    mediaLikes := [] }

/-- A store with a post, a comment thread and both kinds of likes. -/
def dbC8 : DB :=
  { posts := [⟨1, "a.jpg", "a.jpg", "photo", none, none, 100, true, "media/a.jpg"⟩]
    comments := [⟨1, "top", 5, 5, 1, none, "alice"⟩, ⟨2, "reply", 6, 6, 1, some 1, "bob"⟩]
    commentLikes := [⟨1, 7, 2, "carol"⟩]
    mediaLikes := [⟨1, 8, 1, "dave"⟩] }

/-- A store with one post and one comment. -/
def dbC9 : DB :=
  { posts := [⟨1, "a.jpg", "a.jpg", "photo", none, none, 100, true, "media/a.jpg"⟩]
    comments := [⟨1, "old", 5, 5, 1, none, "alice"⟩]
    commentLikes := []
    mediaLikes := [] }

/-- A store with one post and no comments. -/
def dbC10 : DB :=
  { posts := [⟨1, "a.jpg", "a.jpg", "photo", none, none, 100, true, "media/a.jpg"⟩]
    comments := []
    commentLikes := []
    mediaLikes := [] }

/-! ## Theorems -/

/-- When the requested span lies inside the file, the chunked read loop
`iter_file` produces exactly the requested slice. -/
theorem iterFile_eq_take (content : List Nat) :
    ∀ k pos : Nat, pos + k ≤ content.length →
      iterFile content pos (k : Int) = (content.drop pos).take k := by
  intro k
  induction k using Nat.strong_induction_on with
  | _ k ih =>
    intro pos hle
    rw [iterFile]
    by_cases hk : (k : Int) = 0
    · have hk0 : k = 0 := by omega
      subst hk0
      simp
    · rw [dif_neg hk]
      have hkpos : 0 < k := by omega
      have hmin : ¬ (min 8192 (k : Int) < 0) := by omega
      have hmeq : (min (8192 : Int) (k : Int)).toNat = min 8192 k := by omega
      have hreadc : readChunk content pos (k : Int) = (content.drop pos).take (min 8192 k) := by
        simp only [readChunk, if_neg hmin, hmeq]
      have hlendrop : (content.drop pos).length = content.length - pos := by simp
      have hchlen : ((content.drop pos).take (min 8192 k)).length = min 8192 k := by
        simp only [List.length_take, hlendrop]
        omega
      rw [hreadc]
      have hne : ¬ (((content.drop pos).take (min 8192 k)).length = 0) := by
        rw [hchlen]; omega
      rw [dif_neg hne]
      rw [hchlen]
      have hcast : (k : Int) - (min 8192 k : Nat) = ((k - min 8192 k : Nat) : Int) := by
        push_cast
        omega
      rw [hcast]
      rw [ih (k - min 8192 k) (by omega) (pos + min 8192 k) (by omega)]
      rw [← List.drop_drop]
      rw [← List.take_add]
      congr 1
      omega

/-- Reading back the digit character of a decimal digit. -/
theorem charDigit_digitChar (d : Nat) (hd : d < 10) :
    charDigit? (Nat.digitChar d) = some d := by
  interval_cases d <;> decide

/-- Decimal digits print as digit characters. -/
theorem digitChar_isDigit (d : Nat) (hd : d < 10) : (Nat.digitChar d).isDigit = true := by
  interval_cases d <;> decide

/-- Accumulating over the digits that `Nat.toDigitsCore` emits recovers the
number (with enough fuel). -/
theorem digitsAccum_toDigitsCore (f : Nat) :
    ∀ n acc ds, n < 10 ^ (f + 1) →
      digitsAccum acc (Nat.toDigitsCore 10 (f + 1) n ds) =
        digitsAccum (acc * 10 ^ digitsLen n + n) ds := by
  induction f with
  | zero =>
    intro n acc ds hn
    have hn10 : n < 10 := by
      have h10 : (10 : Nat) ^ (0 + 1) = 10 := by norm_num
      omega
    have hdiv : n / 10 = 0 := by omega
    rw [show Nat.toDigitsCore 10 (0 + 1) n ds =
        (if n / 10 = 0 then Nat.digitChar (n % 10) :: ds
         else Nat.toDigitsCore 10 0 (n / 10) (Nat.digitChar (n % 10) :: ds)) from rfl,
      if_pos hdiv]
    have hmod : n % 10 = n := by omega
    rw [hmod, digitsLen, if_pos (by omega : n < 10)]
    simp only [digitsAccum, charDigit_digitChar n (by omega)]
    norm_num
  | succ f ih =>
    intro n acc ds hn
    rw [show Nat.toDigitsCore 10 (f + 1 + 1) n ds =
        (if n / 10 = 0 then Nat.digitChar (n % 10) :: ds
         else Nat.toDigitsCore 10 (f + 1) (n / 10) (Nat.digitChar (n % 10) :: ds)) from rfl]
    by_cases hdiv : n / 10 = 0
    · rw [if_pos hdiv]
      have hn10 : n < 10 := by omega
      have hmod : n % 10 = n := by omega
      rw [hmod, digitsLen, if_pos (by omega : n < 10)]
      simp only [digitsAccum, charDigit_digitChar n (by omega)]
      norm_num
    · rw [if_neg hdiv]
      have hb : 10 ^ (f + 1 + 1) = 10 * 10 ^ (f + 1) := by ring
      rw [ih (n / 10) acc (Nat.digitChar (n % 10) :: ds) (by omega)]
      simp only [digitsAccum, charDigit_digitChar (n % 10) (by omega : n % 10 < 10)]
      have hlen : digitsLen n = digitsLen (n / 10) + 1 := by
        rw [digitsLen, if_neg (by omega : ¬ n < 10)]
      rw [hlen]
      have harg : (acc * 10 ^ digitsLen (n / 10) + n / 10) * 10 + n % 10
          = acc * 10 ^ (digitsLen (n / 10) + 1) + n := by
        rw [pow_succ, ← mul_assoc]
        omega
      rw [harg]

/-- With positive fuel, `Nat.toDigitsCore` emits a list headed by a digit
character. -/
theorem toDigitsCore_head_digit (f : Nat) :
    ∀ n ds, ∃ c rest, Nat.toDigitsCore 10 (f + 1) n ds = c :: rest ∧ c.isDigit = true := by
  induction f with
  | zero =>
    intro n ds
    rw [show Nat.toDigitsCore 10 (0 + 1) n ds =
        (if n / 10 = 0 then Nat.digitChar (n % 10) :: ds
         else Nat.toDigitsCore 10 0 (n / 10) (Nat.digitChar (n % 10) :: ds)) from rfl]
    by_cases hdiv : n / 10 = 0
    · rw [if_pos hdiv]
      exact ⟨Nat.digitChar (n % 10), ds, rfl, digitChar_isDigit _ (by omega)⟩
    · rw [if_neg hdiv]
      exact ⟨Nat.digitChar (n % 10), ds, rfl, digitChar_isDigit _ (by omega)⟩
  | succ f ih =>
    intro n ds
    rw [show Nat.toDigitsCore 10 (f + 1 + 1) n ds =
        (if n / 10 = 0 then Nat.digitChar (n % 10) :: ds
         else Nat.toDigitsCore 10 (f + 1) (n / 10) (Nat.digitChar (n % 10) :: ds)) from rfl]
    by_cases hdiv : n / 10 = 0
    · rw [if_pos hdiv]
      exact ⟨Nat.digitChar (n % 10), ds, rfl, digitChar_isDigit _ (by omega)⟩
    · rw [if_neg hdiv]
      exact ih (n / 10) (Nat.digitChar (n % 10) :: ds)


/-- Round trip: the model of Python `int` parses the decimal numeral of any
natural number back to that number. -/
theorem pythonInt_repr (n : Nat) : pythonInt? (toString n).data = some (n : Int) := by
  have hdata : (toString n).data = Nat.toDigitsCore 10 (n + 1) n [] := rfl
  rw [hdata]
  obtain ⟨c, rest, heq, hdig⟩ := toDigitsCore_head_digit n n []
  have hlt : n < 10 ^ (n + 1) := by
    have := Nat.lt_pow_self (by norm_num : 1 < 10) (n + 1)
    omega
  have hval : digitsToNat? (c :: rest) = some n := by
    show digitsAccum 0 (c :: rest) = some n
    rw [← heq]
    rw [digitsAccum_toDigitsCore n n 0 [] hlt]
    norm_num
    rfl
  have hc1 : ¬ c = '-' := by
    intro h
    rw [h] at hdig
    exact absurd hdig (by decide)
  have hc2 : ¬ c = '+' := by
    intro h
    rw [h] at hdig
    exact absurd hdig (by decide)
  rw [heq]
  simp only [pythonInt?, if_neg hc1, if_neg hc2, hval, Option.map_some]
  rfl

/-- Core 206 shape of `serve_media`: whenever the file is found, the name is
a video, the header is non-empty, both range components parse, and the
clamped end `e` with `start ≤ e < file size` is supplied, the response is the
partial-content record carrying exactly the slice `[start, e]`. -/
theorem serve_media_206 (fs : List (String × List Nat)) (filename : String)
    (entry : String × List Nat) (rh : String) (start e : Nat) (e0 : Int)
    (hfind : fs.find? (fun x => x.1 == filename) = some entry)
    (hvid : isVideo filename = true)
    (hrne : rh.data ≠ [])
    (hps : parseRangeStart (rangeParts rh) = some (start : Int))
    (hpe : parseRangeEnd (rangeParts rh) entry.2.length = some e0)
    (hmin : min e0 ((entry.2.length : Int) - 1) = (e : Int))
    (hse : start ≤ e) (heS : e < entry.2.length) :
    serve_media fs filename (some rh) =
      { status := 206
        body := (entry.2.drop start).take (e - start + 1)
        headers := [("Content-Range",
            "bytes " ++ toString start ++ "-" ++ toString e ++ "/" ++ toString entry.2.length),
          ("Accept-Ranges", "bytes"),
          ("Content-Length", toString (e - start + 1)),
          ("Content-Type", videoContentType filename)] } := by
  have hempty : rh.data.isEmpty = false := by
    cases h : rh.data with
    | nil => exact absurd h hrne
    | cons a l => rfl
  simp only [serve_media, hfind, hvid, hempty, Bool.not_false, Bool.and_self, if_true,
    hps, hpe]
  rw [hmin]
  have hchunk : (e : Int) - (start : Int) + 1 = ((e - start + 1 : Nat) : Int) := by
    push_cast
    omega
  rw [hchunk]
  have htn : ((start : Nat) : Int).toNat = start := by omega
  rw [htn]
  rw [iterFile_eq_take entry.2 (e - start + 1) start (by omega)]
  rfl

/-- Decimal numerals are never empty. -/
theorem toString_nat_data_ne_nil (n : Nat) : (toString n).data ≠ [] := by
  have hdata : (toString n).data = Nat.toDigitsCore 10 (n + 1) n [] := rfl
  obtain ⟨c, rest, heq, -⟩ := toDigitsCore_head_digit n n []
  rw [hdata, heq]
  simp

/-- C1: for a video file on disk and a Range header of the form
`bytes=<start>-<end>` (characterized by the source's own parse: stripping
`bytes=` and splitting on `-` yields the two components), with
`start ≤ end < file size`, `serve_media` returns status 206 whose body is
exactly the byte slice `[start, end]` of the file, of length
`end - start + 1`, with `Content-Length` equal to that length and
`Content-Range` equal to `bytes <start>-<end>/<size>`; an empty `<start>`
component defaults to 0, and an `<end>` component that is empty or at least
the file size is clamped to `size - 1`. -/
theorem serve_media_range_request_correct (fs : List (String × List Nat)) (filename : String)
    (entry : String × List Nat) (rh : String) (startStr endStr : List Char)
    (hfind : fs.find? (fun x => x.1 == filename) = some entry)
    (hvid : isVideo filename = true)
    (hparts : rangeParts rh = [startStr, endStr]) :
    (∀ start e : Nat, startStr = (toString start).data → endStr = (toString e).data →
      start ≤ e → e < entry.2.length →
      serve_media fs filename (some rh) =
        { status := 206
          body := (entry.2.drop start).take (e - start + 1)
          headers := [("Content-Range",
              "bytes " ++ toString start ++ "-" ++ toString e ++ "/" ++ toString entry.2.length),
            ("Accept-Ranges", "bytes"),
            ("Content-Length", toString (e - start + 1)),
            ("Content-Type", videoContentType filename)] } ∧
      ((entry.2.drop start).take (e - start + 1)).length = e - start + 1) ∧
    (∀ e : Nat, startStr = [] → endStr = (toString e).data → e < entry.2.length →
      serve_media fs filename (some rh) =
        { status := 206
          body := (entry.2.drop 0).take (e - 0 + 1)
          headers := [("Content-Range",
              "bytes " ++ toString 0 ++ "-" ++ toString e ++ "/" ++ toString entry.2.length),
            ("Accept-Ranges", "bytes"),
            ("Content-Length", toString (e - 0 + 1)),
            ("Content-Type", videoContentType filename)] }) ∧
    (∀ start : Nat, startStr = (toString start).data → endStr = [] →
      start < entry.2.length →
      serve_media fs filename (some rh) =
        { status := 206
          body := (entry.2.drop start).take (entry.2.length - 1 - start + 1)
          headers := [("Content-Range",
              "bytes " ++ toString start ++ "-" ++ toString (entry.2.length - 1) ++ "/" ++
                toString entry.2.length),
            ("Accept-Ranges", "bytes"),
            ("Content-Length", toString (entry.2.length - 1 - start + 1)),
            ("Content-Type", videoContentType filename)] }) ∧
    (∀ start eRaw : Nat, startStr = (toString start).data → endStr = (toString eRaw).data →
      entry.2.length ≤ eRaw → start < entry.2.length →
      serve_media fs filename (some rh) =
        { status := 206
          body := (entry.2.drop start).take (entry.2.length - 1 - start + 1)
          headers := [("Content-Range",
              "bytes " ++ toString start ++ "-" ++ toString (entry.2.length - 1) ++ "/" ++
                toString entry.2.length),
            ("Accept-Ranges", "bytes"),
            ("Content-Length", toString (entry.2.length - 1 - start + 1)),
            ("Content-Type", videoContentType filename)] }) := by
  have hrne : rh.data ≠ [] := by
    intro h
    have h2 : rangeParts rh = [[]] := by
      rw [rangeParts, h]
      rfl
    rw [hparts] at h2
    exact absurd h2 (by simp)
  refine ⟨?_, ?_, ?_, ?_⟩
  · intro start e hs he hse heS
    have hps : parseRangeStart (rangeParts rh) = some ((start : Nat) : Int) := by
      rw [hparts, parseRangeStart]
      simp only [List.head?]
      rw [hs, if_neg (by simpa using toString_nat_data_ne_nil start), pythonInt_repr]
    have hpe : parseRangeEnd (rangeParts rh) entry.2.length = some ((e : Nat) : Int) := by
      rw [hparts, parseRangeEnd]
      simp only [List.get?]
      rw [he, if_neg (by simpa using toString_nat_data_ne_nil e), pythonInt_repr]
    have hmin : min ((e : Nat) : Int) ((entry.2.length : Int) - 1) = ((e : Nat) : Int) := by
      omega
    refine ⟨serve_media_206 fs filename entry rh start e _ hfind hvid hrne hps hpe hmin hse heS,
      ?_⟩
    simp only [List.length_take, List.length_drop]
    omega
  · intro e hs he heS
    have hps : parseRangeStart (rangeParts rh) = some ((0 : Nat) : Int) := by
      rw [hparts, parseRangeStart]
      simp only [List.head?]
      rw [hs, if_pos rfl]
      norm_num
    have hpe : parseRangeEnd (rangeParts rh) entry.2.length = some ((e : Nat) : Int) := by
      rw [hparts, parseRangeEnd]
      simp only [List.get?]
      rw [he, if_neg (by simpa using toString_nat_data_ne_nil e), pythonInt_repr]
    have hmin : min ((e : Nat) : Int) ((entry.2.length : Int) - 1) = ((e : Nat) : Int) := by
      omega
    exact serve_media_206 fs filename entry rh 0 e _ hfind hvid hrne hps hpe hmin (by omega) heS
  · intro start hs he hstart
    have hps : parseRangeStart (rangeParts rh) = some ((start : Nat) : Int) := by
      rw [hparts, parseRangeStart]
      simp only [List.head?]
      rw [hs, if_neg (by simpa using toString_nat_data_ne_nil start), pythonInt_repr]
    have hpe : parseRangeEnd (rangeParts rh) entry.2.length =
        some (((entry.2.length - 1 : Nat) : Nat) : Int) := by
      rw [hparts, parseRangeEnd]
      simp only [List.get?]
      rw [he, if_pos rfl]
      congr 1
      omega
    have hmin : min (((entry.2.length - 1 : Nat) : Nat) : Int) ((entry.2.length : Int) - 1) =
        (((entry.2.length - 1 : Nat) : Nat) : Int) := by
      omega
    exact serve_media_206 fs filename entry rh start (entry.2.length - 1) _ hfind hvid hrne hps
      hpe hmin (by omega) (by omega)
  · intro start eRaw hs he heS hstart
    have hps : parseRangeStart (rangeParts rh) = some ((start : Nat) : Int) := by
      rw [hparts, parseRangeStart]
      simp only [List.head?]
      rw [hs, if_neg (by simpa using toString_nat_data_ne_nil start), pythonInt_repr]
    have hpe : parseRangeEnd (rangeParts rh) entry.2.length = some ((eRaw : Nat) : Int) := by
      rw [hparts, parseRangeEnd]
      simp only [List.get?]
      rw [he, if_neg (by simpa using toString_nat_data_ne_nil eRaw), pythonInt_repr]
    have hmin : min ((eRaw : Nat) : Int) ((entry.2.length : Int) - 1) =
        (((entry.2.length - 1 : Nat) : Nat) : Int) := by
      omega
    exact serve_media_206 fs filename entry rh start (entry.2.length - 1) _ hfind hvid hrne hps
      hpe hmin (by omega) (by omega)

/-- C4 (amended): a malformed Range header on a video file - one whose
`<start>` or `<end>` component fails to parse as an integer - makes the
uncaught `ValueError` surface as a 500 response, not a 400 validation
error. -/
theorem serve_media_malformed_range_500 (fs : List (String × List Nat)) (filename : String)
    (entry : String × List Nat) (rh : String)
    (hfind : fs.find? (fun x => x.1 == filename) = some entry)
    (hvid : isVideo filename = true)
    (hrne : rh.data ≠ [])
    (hbad : parseRangeStart (rangeParts rh) = none ∨
      parseRangeEnd (rangeParts rh) entry.2.length = none) :
    serve_media fs filename (some rh) = { status := 500, body := [], headers := [] } := by
  have hempty : rh.data.isEmpty = false := by
    cases h : rh.data with
    | nil => exact absurd h hrne
    | cons a l => rfl
  rcases hbad with hb | hb
  · simp only [serve_media, hfind, hvid, hempty, Bool.not_false, Bool.and_self, if_true, hb]
  · rcases hps : parseRangeStart (rangeParts rh) with _ | s <;>
      simp only [serve_media, hfind, hvid, hempty, Bool.not_false, Bool.and_self, if_true,
        hps, hb]

/-- C5: for a file whose extension is not a video extension, a request with
any Range header is answered exactly like a request without one: the full
file with status 200. -/
theorem serve_media_non_video_ignores_range (fs : List (String × List Nat)) (filename : String)
    (entry : String × List Nat) (rh : String)
    (hfind : fs.find? (fun x => x.1 == filename) = some entry)
    (hnv : isVideo filename = false) :
    serve_media fs filename (some rh) = serve_media fs filename none ∧
    (serve_media fs filename (some rh)).status = 200 ∧
    (serve_media fs filename (some rh)).body = entry.2 := by
  refine ⟨?_, ?_, ?_⟩ <;> simp [serve_media, hfind, hnv]

/-- Erasing the first match from a list with at most one match leaves no
match. -/
theorem find?_eraseP_of_countP_le_one {α : Type} (p : α → Bool) (l : List α)
    (h : l.countP p ≤ 1) : (l.eraseP p).find? p = none := by
  induction l with
  | nil => rfl
  | cons a l ih =>
    by_cases pa : p a = true
    · rw [List.eraseP_cons_of_pos pa]
      rw [List.countP_cons, pa] at h
      simp only [if_pos] at h
      rw [List.find?_eq_none]
      intro x hx
      have : l.countP p = 0 := by omega
      have := List.countP_eq_zero.mp this
      exact this x hx
    · rw [List.eraseP_cons_of_neg (by simpa using pa)]
      rw [List.find?_cons_of_neg _ (by simpa using pa)]
      rw [List.countP_cons, if_neg pa] at h
      exact ih (by omega)

/-- Conflict semantics of `like_comment`: for an existing comment the 400
error occurs exactly when the (comment, user) like pair already exists,
otherwise the like is appended; and after a successful unlike (under the
at-most-one invariant) a repeat like succeeds. -/
theorem like_comment_conflict_semantics (db : DB) (cid : Nat) (u : String) (now newId : Nat) :
    (∀ c, db.comments.find? (fun x => x.id == cid) = some c →
      ((like_comment db cid u now newId = .error ⟨400, "Comment already liked by this user"⟩ ↔
        ∃ l ∈ db.commentLikes, l.comment_id = cid ∧ l.user_name = u) ∧
       ((¬ ∃ l ∈ db.commentLikes, l.comment_id = cid ∧ l.user_name = u) →
        like_comment db cid u now newId =
          .ok { db with commentLikes := db.commentLikes ++ [⟨newId, now, cid, u⟩] }) ∧
       (db.commentLikes.countP (fun l => l.comment_id == cid && l.user_name == u) ≤ 1 →
        ∀ db2, unlike_comment db cid u = .ok db2 →
          like_comment db2 cid u now newId =
            .ok { db2 with commentLikes := db2.commentLikes ++ [⟨newId, now, cid, u⟩] }))) := by
  intro c hc
  refine ⟨⟨?_, ?_⟩, ?_, ?_⟩
  · intro herr
    rcases hfl : db.commentLikes.find? (fun l => l.comment_id == cid && l.user_name == u)
      with _ | l
    · rw [like_comment, hc, hfl] at herr
      exact absurd herr (by simp)
    · have hmem := List.mem_of_find?_eq_some hfl
      have hprop := List.find?_some hfl
      simp only [Bool.and_eq_true, beq_iff_eq] at hprop
      exact ⟨l, hmem, hprop.1, hprop.2⟩
  · rintro ⟨l, hmem, h1, h2⟩
    rcases hfl : db.commentLikes.find? (fun x => x.comment_id == cid && x.user_name == u)
      with _ | l'
    · exfalso
      have := List.find?_eq_none.mp hfl l hmem
      simp [h1, h2] at this
    · rw [like_comment, hc, hfl]
  · intro hno
    have hfl : db.commentLikes.find? (fun x => x.comment_id == cid && x.user_name == u)
        = none := by
      rw [List.find?_eq_none]
      intro x hx hpx
      simp only [Bool.and_eq_true, beq_iff_eq] at hpx
      exact hno ⟨x, hx, hpx.1, hpx.2⟩
    rw [like_comment, hc, hfl]
  · intro hcount db2 hun
    rcases hfl : db.commentLikes.find? (fun x => x.comment_id == cid && x.user_name == u)
      with _ | l
    · rw [unlike_comment, hfl] at hun
      exact absurd hun (by simp)
    · rw [unlike_comment, hfl] at hun
      have hdb2 : { db with commentLikes := db.commentLikes.eraseP (fun x => x.comment_id == cid && x.user_name == u) } = db2 := by
        cases hun
        rfl
      subst hdb2
      rw [like_comment]
      show (match db.comments.find? (fun x => x.id == cid) with
        | none => _
        | some _ => _) = _
      rw [hc]
      show (match (db.commentLikes.eraseP (fun x => x.comment_id == cid && x.user_name == u)).find? (fun x => x.comment_id == cid && x.user_name == u) with
        | some _ => _
        | none => _) = _
      rw [find?_eraseP_of_countP_le_one _ _ hcount]

/-- Conflict semantics of `like_media`, mirror of
`like_comment_conflict_semantics`. -/
theorem like_media_conflict_semantics (db : DB) (mid : Nat) (u : String) (now newId : Nat) :
    (∀ p, db.posts.find? (fun x => x.id == mid) = some p →
      ((like_media db mid u now newId = .error ⟨400, "Media post already liked by this user"⟩ ↔
        ∃ l ∈ db.mediaLikes, l.media_post_id = mid ∧ l.user_name = u) ∧
       ((¬ ∃ l ∈ db.mediaLikes, l.media_post_id = mid ∧ l.user_name = u) →
        like_media db mid u now newId =
          .ok { db with mediaLikes := db.mediaLikes ++ [⟨newId, now, mid, u⟩] }) ∧
       (db.mediaLikes.countP (fun l => l.media_post_id == mid && l.user_name == u) ≤ 1 →
        ∀ db2, unlike_media db mid u = .ok db2 →
          like_media db2 mid u now newId =
            .ok { db2 with mediaLikes := db2.mediaLikes ++ [⟨newId, now, mid, u⟩] }))) := by
  intro p hp
  refine ⟨⟨?_, ?_⟩, ?_, ?_⟩
  · intro herr
    rcases hfl : db.mediaLikes.find? (fun l => l.media_post_id == mid && l.user_name == u)
      with _ | l
    · rw [like_media, hp, hfl] at herr
      exact absurd herr (by simp)
    · have hmem := List.mem_of_find?_eq_some hfl
      have hprop := List.find?_some hfl
      simp only [Bool.and_eq_true, beq_iff_eq] at hprop
      exact ⟨l, hmem, hprop.1, hprop.2⟩
  · rintro ⟨l, hmem, h1, h2⟩
    rcases hfl : db.mediaLikes.find? (fun x => x.media_post_id == mid && x.user_name == u)
      with _ | l'
    · exfalso
      have := List.find?_eq_none.mp hfl l hmem
      simp [h1, h2] at this
    · rw [like_media, hp, hfl]
  · intro hno
    have hfl : db.mediaLikes.find? (fun x => x.media_post_id == mid && x.user_name == u)
        = none := by
      rw [List.find?_eq_none]
      intro x hx hpx
      simp only [Bool.and_eq_true, beq_iff_eq] at hpx
      exact hno ⟨x, hx, hpx.1, hpx.2⟩
    rw [like_media, hp, hfl]
  · intro hcount db2 hun
    rcases hfl : db.mediaLikes.find? (fun x => x.media_post_id == mid && x.user_name == u)
      with _ | l
    · rw [unlike_media, hfl] at hun
      exact absurd hun (by simp)
    · rw [unlike_media, hfl] at hun
      have hdb2 : { db with mediaLikes := db.mediaLikes.eraseP (fun x => x.media_post_id == mid && x.user_name == u) } = db2 := by
        cases hun
        rfl
      subst hdb2
      rw [like_media]
      show (match db.posts.find? (fun x => x.id == mid) with
        | none => _
        | some _ => _) = _
      rw [hp]
      show (match (db.mediaLikes.eraseP (fun x => x.media_post_id == mid && x.user_name == u)).find? (fun x => x.media_post_id == mid && x.user_name == u) with
        | some _ => _
        | none => _) = _
      rw [find?_eraseP_of_countP_le_one _ _ hcount]

/-- C2: for a target comment or media post that exists and any user name, a
like request fails with the 400 conflict error exactly when a like record for
that (target id, user name) pair already exists; otherwise the like row is
created; and after a successful unlike of the pair (under the service
invariant that the pair occurs at most once), a repeat like succeeds. -/
theorem like_conflict_iff_duplicate (db : DB) (cid mid : Nat) (u : String) (now newId : Nat) :
    (∀ c, db.comments.find? (fun x => x.id == cid) = some c →
      ((like_comment db cid u now newId = .error ⟨400, "Comment already liked by this user"⟩ ↔
        ∃ l ∈ db.commentLikes, l.comment_id = cid ∧ l.user_name = u) ∧
       ((¬ ∃ l ∈ db.commentLikes, l.comment_id = cid ∧ l.user_name = u) →
        like_comment db cid u now newId =
          .ok { db with commentLikes := db.commentLikes ++ [⟨newId, now, cid, u⟩] }) ∧
       (db.commentLikes.countP (fun l => l.comment_id == cid && l.user_name == u) ≤ 1 →
        ∀ db2, unlike_comment db cid u = .ok db2 →
          like_comment db2 cid u now newId =
            .ok { db2 with commentLikes := db2.commentLikes ++ [⟨newId, now, cid, u⟩] }))) ∧
    (∀ p, db.posts.find? (fun x => x.id == mid) = some p →
      ((like_media db mid u now newId = .error ⟨400, "Media post already liked by this user"⟩ ↔
        ∃ l ∈ db.mediaLikes, l.media_post_id = mid ∧ l.user_name = u) ∧
       ((¬ ∃ l ∈ db.mediaLikes, l.media_post_id = mid ∧ l.user_name = u) →
        like_media db mid u now newId =
          .ok { db with mediaLikes := db.mediaLikes ++ [⟨newId, now, mid, u⟩] }) ∧
       (db.mediaLikes.countP (fun l => l.media_post_id == mid && l.user_name == u) ≤ 1 →
        ∀ db2, unlike_media db mid u = .ok db2 →
          like_media db2 mid u now newId =
            .ok { db2 with mediaLikes := db2.mediaLikes ++ [⟨newId, now, mid, u⟩] }))) :=
  ⟨like_comment_conflict_semantics db cid u now newId,
   like_media_conflict_semantics db mid u now newId⟩


/-- C3 (code bug evidence): deleting comment 1, which has reply 2 carrying a
like, leaves the reply in the store with its parent pointer nullified and
leaves the reply's like intact - the subtree is NOT removed, contradicting
the endpoint's own docstring ("Delete a comment and all its replies") and the
inline comment ("cascading will handle replies and likes"): the `replies`
backref has no delete cascade, so SQLAlchemy nullifies instead of
deleting. -/
theorem delete_comment_keeps_reply_and_like :
    delete_comment dbC3 1 = .ok dbC3post ∧
    dbC3post.comments = [⟨2, "reply", 6, 6, 1, none, "bob"⟩] ∧
    (get_comment dbC3post 2).isOk = true ∧
    dbC3post.commentLikes = [⟨1, 7, 2, "carol"⟩] := by decide

/-- C6 (counterexample): on a store where no comment has id 0, a
create-comment request supplying `parent_comment_id = 0` does NOT fail with
the 404 parent error - it succeeds - because the truthiness guard skips the
validation for 0. -/
theorem create_comment_parent_zero_counterexample :
    (∀ c ∈ dbC6.comments, c.id ≠ 0) ∧
    create_comment dbC6 1 ⟨"hi", "alice", some 0⟩ 9 1 ≠
      .error ⟨404, "Parent comment not found or doesn't belong to this media"⟩ ∧
    (create_comment dbC6 1 ⟨"hi", "alice", some 0⟩ 9 1).isOk = true := by decide

/-- C6 (amended): for a create-comment request on an existing media post
supplying a NONZERO `parent_comment_id`, the request fails with 404 whenever
no comment with that id belongs to that post - in particular when the parent
exists but belongs to a different post. (A `parent_comment_id` of 0 skips the
validation; see `create_comment_parent_zero_succeeds`.) -/
theorem create_comment_bad_parent_404 (db : DB) (mid pid : Nat) (content author : String) (now newId : Nat)
    (post : MediaPostRow)
    (hpid : pid ≠ 0)
    (hpost : db.posts.find? (fun p => p.id == mid) = some post)
    (hnoparent : db.comments.find? (fun c => c.id == pid && c.media_post_id == mid) = none) :
    create_comment db mid ⟨content, author, some pid⟩ now newId =
      .error ⟨404, "Parent comment not found or doesn't belong to this media"⟩ := by
  rw [create_comment]
  show (match db.posts.find? (fun p => p.id == mid) with
    | none => _
    | some _ => _) = _
  rw [hpost]
  have ht : isTruthyId (some pid) = true := by
    simp [isTruthyId, hpid]
  simp only [ht, if_true, Option.getD_some]
  rw [hnoparent]

/-- C10: a create-comment request on an existing post with
`parent_comment_id = 0` skips the parent validation (the guard tests Python
truthiness, and 0 is falsy), succeeds, and persists a comment whose
`parent_comment_id` is 0 even though no comment with id 0 exists. -/
theorem create_comment_parent_zero_succeeds (db : DB) (mid : Nat) (content author : String) (now newId : Nat)
    (post : MediaPostRow)
    (hpost : db.posts.find? (fun p => p.id == mid) = some post)
    (hnozero : ∀ c ∈ db.comments, c.id ≠ 0) :
    create_comment db mid ⟨content, author, some 0⟩ now newId =
      .ok ({ db with comments := db.comments ++ [⟨newId, content, now, now, mid, some 0, author⟩] },
        build_comment_response ⟨newId, content, now, now, mid, some 0, author⟩
          { db with comments := db.comments ++ [⟨newId, content, now, now, mid, some 0, author⟩] }) ∧
    (⟨newId, content, now, now, mid, some 0, author⟩ : CommentRow) ∈
      (db.comments ++ [⟨newId, content, now, now, mid, some 0, author⟩]) ∧
    (⟨newId, content, now, now, mid, some 0, author⟩ : CommentRow).parent_comment_id = some 0 := by
  refine ⟨?_, ?_, rfl⟩
  · rw [create_comment]
    show (match db.posts.find? (fun p => p.id == mid) with
      | none => _
      | some _ => _) = _
    rw [hpost]
    have ht : isTruthyId (some 0) = false := by
      simp [isTruthyId]
    simp only [ht, Bool.false_eq_true, if_false]
  · exact List.mem_append.mpr (Or.inr (List.mem_singleton.mpr rfl))

/-- C8: deleting an existing media post removes the post row, every comment
of the post (replies included), every comment like attached to those
comments, and every media like of the post, while keeping unrelated rows. -/
theorem delete_media_cascade_complete (db : DB) (mid : Nat) (post : MediaPostRow)
    (hfind : db.posts.find? (fun p => p.id == mid) = some post) :
    ∃ db2, delete_media db mid = .ok db2 ∧
      (∀ p2 ∈ db2.posts, p2.id ≠ mid) ∧
      (∀ c ∈ db2.comments, c.media_post_id ≠ mid) ∧
      (∀ l ∈ db2.commentLikes, ∀ c ∈ db.comments, c.media_post_id = mid → l.comment_id ≠ c.id) ∧
      (∀ l ∈ db2.mediaLikes, l.media_post_id ≠ mid) ∧
      (∀ p2 ∈ db.posts, p2.id ≠ mid → p2 ∈ db2.posts) ∧
      (∀ c ∈ db.comments, c.media_post_id ≠ mid → c ∈ db2.comments) ∧
      (∀ l ∈ db.mediaLikes, l.media_post_id ≠ mid → l ∈ db2.mediaLikes) := by
  refine ⟨{ posts := db.posts.filter (fun p => p.id != mid), comments := db.comments.filter (fun c => c.media_post_id != mid), commentLikes := db.commentLikes.filter (fun l => !(((db.comments.filter (fun c => c.media_post_id == mid)).map (fun c => c.id)).contains l.comment_id)), mediaLikes := db.mediaLikes.filter (fun l => l.media_post_id != mid) }, ?_, ?_, ?_, ?_, ?_, ?_, ?_, ?_⟩
  · rw [delete_media]
    show (match db.posts.find? (fun p => p.id == mid) with
      | none => _
      | some _ => _) = _
    rw [hfind]
  · intro p2 hp2
    have := (List.mem_filter.mp hp2).2
    simpa using this
  · intro c hc
    have := (List.mem_filter.mp hc).2
    simpa using this
  · intro l hl c hc hcmid heq
    have hkeep := (List.mem_filter.mp hl).2
    simp only [Bool.not_eq_true'] at hkeep
    have hdead : c.id ∈ (db.comments.filter (fun x => x.media_post_id == mid)).map (fun x => x.id) := by
      exact List.mem_map.mpr ⟨c, List.mem_filter.mpr ⟨hc, by simpa using hcmid⟩, rfl⟩
    have : ((db.comments.filter (fun x => x.media_post_id == mid)).map (fun x => x.id)).contains l.comment_id = true := by
      rw [List.contains_iff_exists_mem_beq]
      exact ⟨c.id, hdead, by simpa using heq⟩
    rw [this] at hkeep
    exact absurd hkeep (by simp)
  · intro l hl
    have := (List.mem_filter.mp hl).2
    simpa using this
  · intro p2 hp2 hne
    exact List.mem_filter.mpr ⟨hp2, by simpa using hne⟩
  · intro c hc hne
    exact List.mem_filter.mpr ⟨hc, by simpa using hne⟩
  · intro l hl hne
    exact List.mem_filter.mpr ⟨hl, by simpa using hne⟩

/-- C9: updating an existing comment replaces only `content` and refreshes
`updated_at` to the given instant; the response and the stored row keep
`id`, `author_name`, `created_at`, `media_post_id` and `parent_comment_id`
unchanged, and no post, like, or other comment row is modified. -/
theorem update_comment_content_only (db : DB) (cid : Nat) (s : String) (now : Nat) (c : CommentRow)
    (hfind : db.comments.find? (fun x => x.id == cid) = some c) :
    ∃ db2 resp, update_comment db cid s now = .ok (db2, resp) ∧
      resp.id = c.id ∧ resp.content = s ∧ resp.updated_at = now ∧
      resp.author_name = c.author_name ∧ resp.created_at = c.created_at ∧
      resp.media_post_id = c.media_post_id ∧ resp.parent_comment_id = c.parent_comment_id ∧
      db2.posts = db.posts ∧ db2.commentLikes = db.commentLikes ∧
      db2.mediaLikes = db.mediaLikes ∧
      db2.comments.length = db.comments.length ∧
      (∀ x ∈ db.comments, x.id ≠ cid → x ∈ db2.comments) ∧
      (∀ x ∈ db2.comments, x.id ≠ cid → x ∈ db.comments) ∧
      (∀ x ∈ db2.comments, x.id = cid →
        x.content = s ∧ x.updated_at = now ∧
        ∃ y ∈ db.comments, y.id = cid ∧ x.author_name = y.author_name ∧
          x.created_at = y.created_at ∧ x.media_post_id = y.media_post_id ∧
          x.parent_comment_id = y.parent_comment_id) := by
  have hcid : c.id = cid := by
    have := List.find?_some hfind
    simpa using this
  refine ⟨{ db with comments := db.comments.map (fun x => if x.id == cid then { x with content := s, updated_at := now } else x) }, build_comment_response { c with content := s, updated_at := now } { db with comments := db.comments.map (fun x => if x.id == cid then { x with content := s, updated_at := now } else x) }, ?_, ?_, ?_, ?_, ?_, ?_, ?_, ?_, rfl, rfl, rfl, ?_, ?_, ?_, ?_⟩
  · rw [update_comment]
    show (match db.comments.find? (fun x => x.id == cid) with
      | none => _
      | some _ => _) = _
    rw [hfind]
  · simp [build_comment_response]
  · simp [build_comment_response]
  · simp [build_comment_response]
  · simp [build_comment_response]
  · simp [build_comment_response]
  · simp [build_comment_response]
  · simp [build_comment_response]
  · simp
  · intro x hx hne
    refine List.mem_map.mpr ⟨x, hx, ?_⟩
    rw [if_neg (by simpa using hne)]
  · intro x hx hne
    obtain ⟨y, hy, hxy⟩ := List.mem_map.mp hx
    by_cases hyc : y.id = cid
    · rw [if_pos (by simpa using hyc)] at hxy
      exfalso
      apply hne
      rw [← hxy]
      simpa using hyc
    · rw [if_neg (by simpa using hyc)] at hxy
      rw [← hxy]
      exact hy
  · intro x hx hxc
    obtain ⟨y, hy, hxy⟩ := List.mem_map.mp hx
    by_cases hyc : y.id = cid
    · rw [if_pos (by simpa using hyc)] at hxy
      refine ⟨by rw [← hxy], by rw [← hxy], y, hy, hyc, ?_, ?_, ?_, ?_⟩ <;> rw [← hxy]
    · rw [if_neg (by simpa using hyc)] at hxy
      exfalso
      exact hyc (by rw [hxy]; exact hxc)

/-- C7: the feed listing returns only rows coming from `published = true`
posts, annotated with the live media-like count, ordered by timestamp
descending, and windowed by `skip`/`limit` (FastAPI defaults 0 and 100): the
result has length at most `limit` and equals the `skip`-offset window of the
unpaginated prefix. -/
theorem get_all_media_published_sorted_paginated (db : DB) (skip limit : Nat) :
    (∀ r ∈ get_all_media db skip limit, r.published = true) ∧
    (∀ r ∈ get_all_media db skip limit, ∃ p ∈ db.posts, p.published = true ∧
      r = mediaPostResponseOf db p ∧
      r.likes_count = db.mediaLikes.countP (fun l => l.media_post_id == p.id)) ∧
    List.Pairwise (fun a b : MediaPostResponse => b.timestamp ≤ a.timestamp)
      (get_all_media db skip limit) ∧
    (get_all_media db skip limit).length ≤ limit ∧
    get_all_media db skip limit = (get_all_media db 0 (skip + limit)).drop skip := by
  have hmemof : ∀ r ∈ get_all_media db skip limit, ∃ p ∈ db.posts, p.published = true ∧
      r = mediaPostResponseOf db p ∧
      r.likes_count = db.mediaLikes.countP (fun l => l.media_post_id == p.id) := by
    intro r hr
    obtain ⟨p, hpwin, hpr⟩ := List.mem_map.mp hr
    have hpsorted : p ∈ (db.posts.filter (fun x => x.published)).mergeSort
        (fun a b => decide (b.timestamp ≤ a.timestamp)) := by
      exact (List.drop_sublist _ _).subset ((List.take_sublist _ _).subset hpwin)
    have hpfilter : p ∈ db.posts.filter (fun x => x.published) :=
      (List.mergeSort_perm _ _).subset hpsorted
    have hp := List.mem_filter.mp hpfilter
    refine ⟨p, hp.1, hp.2, hpr.symm, ?_⟩
    rw [← hpr]
    rfl
  refine ⟨?_, hmemof, ?_, ?_, ?_⟩
  · intro r hr
    obtain ⟨p, hpmem, hpub, hrp, -⟩ := hmemof r hr
    rw [hrp]
    exact hpub
  · have htrans : ∀ a b c : MediaPostRow,
        decide (b.timestamp ≤ a.timestamp) = true →
        decide (c.timestamp ≤ b.timestamp) = true →
        decide (c.timestamp ≤ a.timestamp) = true := by
      intro a b c hab hbc
      simp only [decide_eq_true_eq] at hab hbc ⊢
      omega
    have htotal : ∀ a b : MediaPostRow,
        (decide (b.timestamp ≤ a.timestamp) || decide (a.timestamp ≤ b.timestamp)) = true := by
      intro a b
      simp only [Bool.or_eq_true, decide_eq_true_eq]
      omega
    have hsorted := @List.sorted_mergeSort MediaPostRow
      (fun a b => decide (b.timestamp ≤ a.timestamp)) htrans htotal
      (db.posts.filter (fun x => x.published))
    have hwin : List.Pairwise
        (fun a b : MediaPostRow => decide (b.timestamp ≤ a.timestamp) = true)
        ((((db.posts.filter (fun x => x.published)).mergeSort
          (fun a b => decide (b.timestamp ≤ a.timestamp))).drop skip).take limit) :=
      List.Pairwise.sublist ((List.take_sublist _ _).trans (List.drop_sublist _ _)) hsorted
    refine List.Pairwise.map _ ?_ hwin
    intro a b hab
    simpa using hab
  · rw [get_all_media]
    rw [List.length_map]
    exact List.length_take_le _ _
  · rw [get_all_media, get_all_media]
    rw [List.drop_zero]
    rw [← List.map_drop]
    rw [List.drop_take]
    congr 2
    omega

/-- Witness for C1 at a concrete file and the literal header
`bytes=2-5`. -/
theorem serve_media_range_request_correct_witness :
    serve_media [("v.mp4", [10, 11, 12, 13, 14, 15, 16, 17, 18, 19])] "v.mp4"
        (some "bytes=2-5") =
      { status := 206
        body := (([10, 11, 12, 13, 14, 15, 16, 17, 18, 19] : List Nat).drop 2).take (5 - 2 + 1)
        headers := [("Content-Range", "bytes " ++ toString 2 ++ "-" ++ toString 5 ++ "/" ++ toString ([10, 11, 12, 13, 14, 15, 16, 17, 18, 19] : List Nat).length), ("Accept-Ranges", "bytes"), ("Content-Length", toString (5 - 2 + 1)), ("Content-Type", videoContentType "v.mp4")] } ∧
    ((([10, 11, 12, 13, 14, 15, 16, 17, 18, 19] : List Nat).drop 2).take (5 - 2 + 1)).length =
      5 - 2 + 1 :=
  (serve_media_range_request_correct [("v.mp4", [10, 11, 12, 13, 14, 15, 16, 17, 18, 19])] "v.mp4"
    ("v.mp4", [10, 11, 12, 13, 14, 15, 16, 17, 18, 19]) "bytes=2-5" "2".data "5".data
    (by decide) (by decide) (by decide)).1 2 5 (by decide) (by decide) (by decide) (by decide)

/-- C4 (counterexample): the literal malformed header `bytes=abc-3` on a
video file yields status 500, not the 400 the claim states. -/
theorem serve_media_malformed_range_counterexample :
    (serve_media [("v.mp4", [0, 1, 2, 3])] "v.mp4" (some "bytes=abc-3")).status = 500 ∧
    (serve_media [("v.mp4", [0, 1, 2, 3])] "v.mp4" (some "bytes=abc-3")).status ≠ 400 := by
  decide

/-- Witness for the amended C4 at the literal header `bytes=abc-3`. -/
theorem serve_media_malformed_range_500_witness :
    serve_media [("v.mp4", [0, 1, 2, 3])] "v.mp4" (some "bytes=abc-3") =
      { status := 500, body := [], headers := [] } :=
  serve_media_malformed_range_500 [("v.mp4", [0, 1, 2, 3])] "v.mp4" ("v.mp4", [0, 1, 2, 3]) "bytes=abc-3"
    (by decide) (by decide) (by decide) (Or.inl (by decide))

/-- Witness for C5: a Range request on a `.jpg` returns the full file with
200. -/
theorem serve_media_non_video_ignores_range_witness :
    serve_media [("x.jpg", [1, 2, 3])] "x.jpg" (some "bytes=0-1") =
      serve_media [("x.jpg", [1, 2, 3])] "x.jpg" none ∧
    (serve_media [("x.jpg", [1, 2, 3])] "x.jpg" (some "bytes=0-1")).status = 200 ∧
    (serve_media [("x.jpg", [1, 2, 3])] "x.jpg" (some "bytes=0-1")).body = [1, 2, 3] :=
  serve_media_non_video_ignores_range [("x.jpg", [1, 2, 3])] "x.jpg" ("x.jpg", [1, 2, 3]) "bytes=0-1" (by decide) (by decide)

/-- Witness for C2 at a concrete store: a fresh like on comment 1 and on
post 1 by "alice" both succeed and append the like row. -/
theorem like_conflict_iff_duplicate_witness :
    like_comment dbC2 1 "alice" 9 5 =
      .ok { dbC2 with commentLikes := dbC2.commentLikes ++ [⟨5, 9, 1, "alice"⟩] } ∧
    like_media dbC2 1 "alice" 9 5 =
      .ok { dbC2 with mediaLikes := dbC2.mediaLikes ++ [⟨5, 9, 1, "alice"⟩] } :=
  ⟨((like_conflict_iff_duplicate dbC2 1 1 "alice" 9 5).1 ⟨1, "nice", 5, 5, 1, none, "bob"⟩
      (by decide)).2.1 (by decide),
   ((like_conflict_iff_duplicate dbC2 1 1 "alice" 9 5).2
      ⟨1, "a.jpg", "a.jpg", "photo", none, none, 100, true, "media/a.jpg"⟩
      (by decide)).2.1 (by decide)⟩

/-- Witness for the amended C6: replying on post 1 with parent comment 7,
which exists but belongs to post 2, yields the 404 parent error. -/
theorem create_comment_bad_parent_404_witness :
    create_comment dbC6W 1 ⟨"hi", "alice", some 7⟩ 9 9 =
      .error ⟨404, "Parent comment not found or doesn't belong to this media"⟩ :=
  create_comment_bad_parent_404 dbC6W 1 7 "hi" "alice" 9 9
    ⟨1, "a.jpg", "a.jpg", "photo", none, none, 100, true, "media/a.jpg"⟩
    (by decide) (by decide) (by decide)

/-- Witness for C7 at a concrete one-post store. -/
theorem get_all_media_published_sorted_paginated_witness :
    (mediaPostResponseOf dbC7 ⟨1, "a.jpg", "a.jpg", "photo", none, none, 100, true, "media/a.jpg"⟩).published = true :=
  (get_all_media_published_sorted_paginated dbC7 0 100).1
    (mediaPostResponseOf dbC7 ⟨1, "a.jpg", "a.jpg", "photo", none, none, 100, true, "media/a.jpg"⟩)
    (by simp [get_all_media, dbC7])

/-- Witness for C8 at a concrete store with a comment thread and likes. -/
theorem delete_media_cascade_complete_witness :
    ∃ db2, delete_media dbC8 1 = .ok db2 ∧
      (∀ p2 ∈ db2.posts, p2.id ≠ 1) ∧
      (∀ c ∈ db2.comments, c.media_post_id ≠ 1) ∧
      (∀ l ∈ db2.commentLikes, ∀ c ∈ dbC8.comments, c.media_post_id = 1 → l.comment_id ≠ c.id) ∧
      (∀ l ∈ db2.mediaLikes, l.media_post_id ≠ 1) ∧
      (∀ p2 ∈ dbC8.posts, p2.id ≠ 1 → p2 ∈ db2.posts) ∧
      (∀ c ∈ dbC8.comments, c.media_post_id ≠ 1 → c ∈ db2.comments) ∧
      (∀ l ∈ dbC8.mediaLikes, l.media_post_id ≠ 1 → l ∈ db2.mediaLikes) :=
  delete_media_cascade_complete dbC8 1 ⟨1, "a.jpg", "a.jpg", "photo", none, none, 100, true, "media/a.jpg"⟩ (by decide)

/-- Witness for C9 at a concrete store. -/
theorem update_comment_content_only_witness :
    ∃ db2 resp, update_comment dbC9 1 "new" 42 = .ok (db2, resp) ∧
      resp.id = (⟨1, "old", 5, 5, 1, none, "alice"⟩ : CommentRow).id ∧
      resp.content = "new" ∧ resp.updated_at = 42 ∧
      resp.author_name = (⟨1, "old", 5, 5, 1, none, "alice"⟩ : CommentRow).author_name ∧
      resp.created_at = (⟨1, "old", 5, 5, 1, none, "alice"⟩ : CommentRow).created_at ∧
      resp.media_post_id = (⟨1, "old", 5, 5, 1, none, "alice"⟩ : CommentRow).media_post_id ∧
      resp.parent_comment_id = (⟨1, "old", 5, 5, 1, none, "alice"⟩ : CommentRow).parent_comment_id ∧
      db2.posts = dbC9.posts ∧ db2.commentLikes = dbC9.commentLikes ∧
      db2.mediaLikes = dbC9.mediaLikes ∧
      db2.comments.length = dbC9.comments.length ∧
      (∀ x ∈ dbC9.comments, x.id ≠ 1 → x ∈ db2.comments) ∧
      (∀ x ∈ db2.comments, x.id ≠ 1 → x ∈ dbC9.comments) ∧
      (∀ x ∈ db2.comments, x.id = 1 →
        x.content = "new" ∧ x.updated_at = 42 ∧
        ∃ y ∈ dbC9.comments, y.id = 1 ∧ x.author_name = y.author_name ∧
          x.created_at = y.created_at ∧ x.media_post_id = y.media_post_id ∧
          x.parent_comment_id = y.parent_comment_id) :=
  update_comment_content_only dbC9 1 "new" 42 ⟨1, "old", 5, 5, 1, none, "alice"⟩ (by decide)

/-- Witness for C10 at a concrete store. -/
theorem create_comment_parent_zero_succeeds_witness :
    create_comment dbC10 1 ⟨"hi", "al", some 0⟩ 9 3 =
      .ok ({ dbC10 with comments := dbC10.comments ++ [⟨3, "hi", 9, 9, 1, some 0, "al"⟩] },
        build_comment_response ⟨3, "hi", 9, 9, 1, some 0, "al"⟩
          { dbC10 with comments := dbC10.comments ++ [⟨3, "hi", 9, 9, 1, some 0, "al"⟩] }) ∧
    (⟨3, "hi", 9, 9, 1, some 0, "al"⟩ : CommentRow) ∈
      (dbC10.comments ++ [⟨3, "hi", 9, 9, 1, some 0, "al"⟩]) ∧
    (⟨3, "hi", 9, 9, 1, some 0, "al"⟩ : CommentRow).parent_comment_id = some 0 :=
  create_comment_parent_zero_succeeds dbC10 1 "hi" "al" 9 3 ⟨1, "a.jpg", "a.jpg", "photo", none, none, 100, true, "media/a.jpg"⟩
    (by decide) (by decide)
